import Mathlib

/-!
Shallow embedding of the DPVS IPv6 layer (src/ipv6/ipv6.c) together with
theorems settling the specification claims about it.

Every function of the source file that the claims touch is translated to an
executable Lean definition of the same name.  External collaborators that the
source consumes through narrow interfaces (route table, hook pipeline,
neighbour output, multicast membership, hop-by-hop option walk, protocol
handlers) live in an explicit environment record; the per-core statistics and
the observable side effects (packet frees, route releases, hand-offs,
handler invocations) are threaded through a `World` state whose event trace
makes ownership claims statable.
-/

set_option linter.unusedVariables false

namespace DPVS

/-! ### Error codes

Modelled from the spec: the numeric error codes come from a header that is
not part of src/; only their distinctness, success being zero and failures
being negative matter to this file. -/

/-- Success status. -/
def EDPVS_OK : Int := 0
/-- Modelled from the spec: the generic invalid-input failure. -/
def EDPVS_INVAL : Int := -3
/-- Modelled from the spec: drop status of the receive path. -/
def EDPVS_DROP : Int := -6
/-- Modelled from the spec: no-route failure. -/
def EDPVS_NOROUTE : Int := -8
/-- Modelled from the spec: fragmentation failure. -/
def EDPVS_FRAG : Int := -10
/-- Modelled from the spec: buffer-room / too-large failure. -/
def EDPVS_NOROOM : Int := -12
/-- Modelled from the spec: hand the packet on to the external kni consumer. -/
def EDPVS_KNICONTINUE : Int := -17

/-! ### Protocol constants (values are the Internet-standard ones). -/

def IPV6_MIN_MTU : Nat := 1280
def IPV6_MAXPLEN : Nat := 65535
def NEXTHDR_HOP : Nat := 0
def IPPROTO_ICMPV6 : Nat := 58
def INET_DEF_TTL : Nat := 64

/-- Flag on a protocol descriptor marking a final/transport protocol. -/
def INET6_PROTO_F_FINAL : Nat := 0x01

/-- Modelled from the spec: route flag bits (route6.h is not part of src/;
distinct bits are all that matters). -/
def RTF_GATEWAY : Nat := 0x0002
/-- Modelled from the spec: route flagged "destined to local host". -/
def RTF_LOCALIN : Nat := 0x0100
/-- Modelled from the spec: route flagged "forwardable". -/
def RTF_FORWARD : Nat := 0x0200

/-! ### Address classification

Modelled from the spec and RFC4291 (inet.h/inet.c are not part of src/):
an address is its sixteen bytes; the classification flags follow the
standard address-class taxonomy that the forwarding policy consults. -/

def IPV6_ADDR_ANY : Nat := 0x0000
def IPV6_ADDR_UNICAST : Nat := 0x0001
def IPV6_ADDR_MULTICAST : Nat := 0x0002
def IPV6_ADDR_LOOPBACK : Nat := 0x0010
def IPV6_ADDR_LINKLOCAL : Nat := 0x0020
def IPV6_ADDR_SCOPE_NODELOCAL : Nat := 0x01

/-- An IPv6 address: its sixteen bytes in network order. -/
abbrev In6Addr := List Nat

/-- Byte `i` of an address (0 past the end). -/
def in6_byte (a : In6Addr) (i : Nat) : Nat := (a.get? i).getD 0

def in6addr_any : In6Addr := List.replicate 16 0

def in6addr_loopback : In6Addr := [0, 0, 0, 0, 0, 0, 0, 0, 0, 0, 0, 0, 0, 0, 0, 1]

/-- An address is multicast iff its first byte is 0xff. -/
def ipv6_addr_is_multicast (a : In6Addr) : Bool := in6_byte a 0 == 0xff

def ipv6_addr_loopback (a : In6Addr) : Bool := a == in6addr_loopback

def ipv6_addr_any (a : In6Addr) : Bool := a == in6addr_any

/-- Multicast scope: the low nibble of the second byte. -/
def IPV6_ADDR_MC_SCOPE (a : In6Addr) : Nat := in6_byte a 1 &&& 0x0f

/-- Link-local unicast: fe80::/10. -/
def ipv6_addr_linklocal (a : In6Addr) : Bool :=
  in6_byte a 0 == 0xfe && (in6_byte a 1 &&& 0xc0) == 0x80

/-- Modelled from the spec: the address-class bitmask that the forwarding
policy consults (unspecified / multicast / loopback / link-local / unicast). -/
def ipv6_addr_type (a : In6Addr) : Nat :=
  if ipv6_addr_is_multicast a then IPV6_ADDR_MULTICAST
  else if ipv6_addr_loopback a then IPV6_ADDR_LOOPBACK ||| IPV6_ADDR_UNICAST
  else if ipv6_addr_any a then IPV6_ADDR_ANY
  else if ipv6_addr_linklocal a then IPV6_ADDR_LINKLOCAL ||| IPV6_ADDR_UNICAST
  else IPV6_ADDR_UNICAST

/-! ### Data model -/

/-- An egress/ingress device: identifier and link MTU. -/
structure NetifPort where
  id : Nat
  mtu : Nat
deriving DecidableEq, Repr, Inhabited

/-- A routing decision (struct route6): flags, explicit MTU, egress device,
gateway address.  Reference counting is observed through `routePut` events. -/
structure Route6 where
  rt6_flags : Nat
  rt6_mtu : Nat
  rt6_dev : Option NetifPort
  rt6_gateway : In6Addr
deriving DecidableEq, Repr

instance : Inhabited Route6 :=
  ⟨{ rt6_flags := 0, rt6_mtu := 0, rt6_dev := none, rt6_gateway := in6addr_any }⟩

/-- The fixed 40-byte IPv6 header viewed over the packet's leading bytes.
`ip6_plen` carries the declared payload length already in host order. -/
structure Ip6Hdr where
  ip6_vfc : Nat
  ip6_flow : Nat
  ip6_plen : Nat
  ip6_nxt : Nat
  ip6_hlim : Nat
  ip6_src : In6Addr
  ip6_dst : In6Addr
deriving DecidableEq, Repr

/-- Link-layer classification of a received frame. -/
inductive EthPktType
  | host
  | broadcast
  | multicast
  | otherhost
deriving DecidableEq, Repr

/-- Contents of the mbuf's transient attached-object slot (`mbuf->userdata`):
empty, a route binding, or the re-published header pointer. -/
inductive Userdata
  | null
  | route (rt : Route6)
  | hdrref
deriving DecidableEq, Repr

/-- Route stored in the slot; a C caller would blindly cast the pointer, so
absence yields the (meaningless) default route, as a crash would in C. -/
def Userdata.getRoute : Userdata → Route6
  | .route rt => rt
  | _ => default

/-- The packet buffer and its metadata (struct rte_mbuf fields the source
touches).  `head_len`/`tail_len` are the first/last segment data lengths that
bound `rte_pktmbuf_adj`/`rte_pktmbuf_trim`; a single-segment mbuf has both
equal to `pkt_len`.  `hdr` is the parsed view of the leading header bytes. -/
structure Mbuf where
  pkt_len : Nat
  head_len : Nat
  tail_len : Nat
  headroom : Nat
  packet_type : EthPktType
  port : Nat
  l3_len : Nat
  userdata : Userdata
  hdr : Ip6Hdr
deriving DecidableEq, Repr

/-- The C macro reading the fixed header view. -/
def ip6_hdr (m : Mbuf) : Ip6Hdr := m.hdr

/-- Ensure `n` contiguous leading bytes; fails iff the packet is shorter
(the segment-linearising detail of mbuf.h is abstracted to its length test). -/
def mbuf_may_pull (m : Mbuf) (n : Nat) : Bool := n ≤ m.pkt_len

/-- Remove `n` bytes at the front; fails if the first segment is shorter. -/
def rte_pktmbuf_adj (m : Mbuf) (n : Nat) : Option Mbuf :=
  if n ≤ m.head_len then
    some { m with pkt_len := m.pkt_len - n, head_len := m.head_len - n }
  else none

/-- Remove `n` bytes at the tail; fails if the last segment is shorter. -/
def rte_pktmbuf_trim (m : Mbuf) (n : Nat) : Option Mbuf :=
  if n ≤ m.tail_len then
    some { m with pkt_len := m.pkt_len - n, tail_len := m.tail_len - n }
  else none

/-- Grow the buffer at the front; fails if the headroom is too small. -/
def rte_pktmbuf_prepend (m : Mbuf) (n : Nat) : Option Mbuf :=
  if n ≤ m.headroom then
    some { m with pkt_len := m.pkt_len + n, head_len := m.head_len + n,
                  headroom := m.headroom - n }
  else none

/-- Flow descriptor (struct flow6) keying route lookup and transmit. -/
structure Flow6 where
  fl6_iif : Option NetifPort := none
  fl6_oif : Option NetifPort := none
  fl6_daddr : In6Addr := in6addr_any
  fl6_saddr : In6Addr := in6addr_any
  fl6_proto : Nat := 0
  fl6_tos : Nat := 0
  fl6_flow : Nat := 0
  fl6_ttl : Nat := 0
  fl6_scope : Nat := 0

/-- Per-core statistics: exactly the counters ipv6.c increments. -/
structure InetStats where
  inpkts : Nat := 0
  inoctets : Nat := 0
  indelivers : Nat := 0
  outforwdatagrams : Nat := 0
  outpkts : Nat := 0
  outoctets : Nat := 0
  inhdrerrors : Nat := 0
  intoobigerrors : Nat := 0
  inaddrerrors : Nat := 0
  innoroutes : Nat := 0
  intruncatedpkts : Nat := 0
  indiscards : Nat := 0
  outdiscards : Nat := 0
  outnoroutes : Nat := 0
  fragfails : Nat := 0
  inmcastpkts : Nat := 0
  inmcastoctets : Nat := 0
  outmcastpkts : Nat := 0
  outmcastoctets : Nat := 0
  inunknownprotos : Nat := 0
deriving DecidableEq, Repr

/-- The five fixed hook insertion points. -/
inductive HookStage
  | preRouting
  | localIn
  | forward
  | localOut
  | postRouting
deriving DecidableEq, Repr

/-- Observable side effects of a run, in order.  `pktFree` and `kniPass`
record the contents of the attached-object slot at the moment the packet is
freed resp. handed to the non-owning external consumer; `routePut` is one
release of a route binding; `handlerCall` is one protocol-handler invocation;
`neighSend` hands the packet to the owning neighbour-output interface;
`hookEnter` records the packet length as a hook stage is dispatched. -/
inductive Event
  | routePut
  | pktFree (ud : Userdata)
  | kniPass (ud : Userdata)
  | handlerCall (nexthdr : Nat)
  | neighSend (ud : Userdata)
  | hookEnter (st : HookStage) (len : Nat)
  | hbhParse
  | routeLookupIn
  | routeLookupOut
deriving DecidableEq, Repr

/-- Ambient mutable state: this core's counters plus the event trace. -/
structure World where
  stats : InetStats
  trace : List Event
deriving DecidableEq, Repr

def World.emit (w : World) (e : Event) : World := { w with trace := w.trace ++ [e] }

def World.upd (w : World) (f : InetStats → InetStats) : World := { w with stats := f w.stats }

/-- Verdict of one hook stage on a packet: continue with the (possibly
modified) packet, or drop it. -/
inductive HookRes
  | accept (m : Mbuf)
  | drop

/-- A registered protocol descriptor: handler plus flags.  A handler returns
the C int (positive: next header value; zero: consumed; negative: contract
violation) together with the packet as it left it (l3_len updated). -/
structure Inet6Protocol where
  handler : Mbuf → Int × Mbuf
  flags : Nat

/-- Administrative configuration snapshot (conf_ipv6_forwarding /
conf_ipv6_disable). -/
structure Config where
  forwarding : Bool
  disable : Bool

/-- External collaborators consumed through narrow interfaces: hook pipeline,
device table, route lookups, multicast membership, neighbour output,
hop-by-hop option walk (returning the new l3_len on success), the protocol
registry contents, and source-address selection. -/
structure Env where
  hooks : HookStage → Mbuf → HookRes
  netif_port_get : Nat → Option NetifPort
  route_input : Mbuf → Flow6 → Option Route6
  route_output : Mbuf → Flow6 → Option Route6
  inet_chk_mcast_addr : Option NetifPort → In6Addr → Option In6Addr → Bool
  neigh_output : In6Addr → Mbuf → Option NetifPort → Int
  ipv6_parse_hopopts : Mbuf → Option Nat
  prots : Nat → Option Inet6Protocol
  inet_addr_select : Option NetifPort → In6Addr → Nat → In6Addr

/-- Modelled from the spec: INET_HOOK of the hook pipeline (inet.c is not
part of src/).  A stage may accept — continuing with the terminal handler on
the possibly modified packet — or drop, terminating with no further stages.
The in/out device arguments of the C call are consumed only by the external
hook callbacks and are not modelled. -/
def INET_HOOK (env : Env) (st : HookStage) (m : Mbuf)
    (fin : Mbuf → World → Option (Int × World)) (w : World) : Option (Int × World) :=
  let w := w.emit (.hookEnter st m.pkt_len)
  match env.hooks st m with
  | .accept m' => fin m' w
  | .drop => some (EDPVS_DROP, w.emit (.pktFree m.userdata))

/-! ### The pipeline, function by function from ipv6.c. -/

/-- ip6_rt_nexthop: the route's gateway if flagged and set, else the
packet's own destination. -/
def ip6_rt_nexthop (rt : Route6) (daddr : In6Addr) : In6Addr :=
  if rt.rt6_flags &&& RTF_GATEWAY ≠ 0 ∧ ¬ ipv6_addr_any rt.rt6_gateway then
    rt.rt6_gateway
  else daddr

/-- ip6_mtu_forward: route MTU if set, else device MTU if set, else floor. -/
def ip6_mtu_forward (rt : Route6) : Nat :=
  if rt.rt6_mtu ≠ 0 then rt.rt6_mtu
  else
    match rt.rt6_dev with
    | some dev => if dev.mtu ≠ 0 then dev.mtu else IPV6_MIN_MTU
    | none => IPV6_MIN_MTU

/-- ip6_fragment: the fragmentation stub — count a fragmentation failure,
release the binding, free the packet, return the fragmentation failure. -/
def ip6_fragment (m : Mbuf) (mtu : Nat)
    (out : Mbuf → World → Option (Int × World)) (w : World) : Option (Int × World) :=
  let w := w.upd (fun s => { s with fragfails := s.fragfails + 1 })
  let w := w.emit .routePut
  let w := w.emit (.pktFree m.userdata)
  some (EDPVS_FRAG, w)

/-- ip6_output_fin2: multicast scope policy, next-hop selection, hand-off to
neighbour output, then release of the binding. -/
def ip6_output_fin2 (env : Env) (m : Mbuf) (w : World) : Option (Int × World) :=
  let hdr := ip6_hdr m
  let rt := m.userdata.getRoute
  let w :=
    if ipv6_addr_is_multicast hdr.ip6_dst then
      w.upd (fun s => { s with outmcastpkts := s.outmcastpkts + 1,
                               outmcastoctets := s.outmcastoctets + m.pkt_len })
    else w
  if ipv6_addr_is_multicast hdr.ip6_dst ∧
      IPV6_ADDR_MC_SCOPE hdr.ip6_dst ≤ IPV6_ADDR_SCOPE_NODELOCAL then
    let w := w.upd (fun s => { s with outdiscards := s.outdiscards + 1 })
    let w := w.emit (.pktFree m.userdata)
    let w := w.emit .routePut
    some (EDPVS_INVAL, w)
  else
    let nexthop := ip6_rt_nexthop rt hdr.ip6_dst
    -- mbuf->packet_type = ETHER_TYPE_IPv6: a link-layer tag consumed only by
    -- the external neighbour layer; not modelled.
    let w := w.emit (.neighSend m.userdata)
    let err := env.neigh_output nexthop m rt.rt6_dev
    let w := w.emit .routePut
    some (err, w)

/-- ip6_output_fin: fragment if the packet exceeds the route MTU. -/
def ip6_output_fin (env : Env) (m : Mbuf) (w : World) : Option (Int × World) :=
  let rt := m.userdata.getRoute
  if m.pkt_len > rt.rt6_mtu then
    ip6_fragment m rt.rt6_mtu (ip6_output_fin2 env) w
  else
    ip6_output_fin2 env m w

/-- ip6_output: out stats, egress port, global disable gate, then the
post-routing hook terminating in ip6_output_fin. -/
def ip6_output (env : Env) (cfg : Config) (m : Mbuf) (w : World) : Option (Int × World) :=
  let rt := m.userdata.getRoute
  let w := w.upd (fun s => { s with outpkts := s.outpkts + 1,
                                    outoctets := s.outoctets + m.pkt_len })
  let m := { m with port := (rt.rt6_dev.getD default).id }
  if cfg.disable then
    let w := w.upd (fun s => { s with outdiscards := s.outdiscards + 1 })
    let w := w.emit .routePut
    let w := w.emit (.pktFree m.userdata)
    some (EDPVS_OK, w)
  else
    INET_HOOK env .postRouting m (ip6_output_fin env) w

/-- ip6_local_out: the local-out hook terminating in ip6_output. -/
def ip6_local_out (env : Env) (cfg : Config) (m : Mbuf) (w : World) : Option (Int × World) :=
  INET_HOOK env .localOut m (ip6_output env cfg) w

/-- ip6_forward_fin: count the forwarded datagram and invoke the output
engine. -/
def ip6_forward_fin (env : Env) (cfg : Config) (m : Mbuf) (w : World) : Option (Int × World) :=
  let w := w.upd (fun s => { s with outforwdatagrams := s.outforwdatagrams + 1,
                                    outoctets := s.outoctets + m.pkt_len })
  ip6_output env cfg m w

/-- ip6_forward: administrative, link-class, multicast, hop-limit and
source-address policy; MTU check; hop-limit decrement; forward hook. -/
def ip6_forward (env : Env) (cfg : Config) (m : Mbuf) (w : World) : Option (Int × World) :=
  let hdr := ip6_hdr m
  let rt := m.userdata.getRoute
  -- goto error: count inaddrerrors, then fall into drop: free, EDPVS_INVAL.
  let errorDrop : World → Option (Int × World) := fun w =>
    some (EDPVS_INVAL,
      ((w.upd (fun s => { s with inaddrerrors := s.inaddrerrors + 1 })).emit
        (.pktFree m.userdata)))
  if ¬ cfg.forwarding then errorDrop w
  else if m.packet_type ≠ .host then
    -- goto drop: free only, no counter.
    some (EDPVS_INVAL, w.emit (.pktFree m.userdata))
  else if ipv6_addr_is_multicast hdr.ip6_dst then errorDrop w
  else if hdr.ip6_hlim ≤ 1 then
    -- mbuf->port = rt->rt6_dev->id; (icmpv6 time-exceeded is stubbed out)
    let w := w.upd (fun s => { s with inhdrerrors := s.inhdrerrors + 1 })
    some (EDPVS_INVAL, w.emit (.pktFree m.userdata))
  else
    let addrtype := ipv6_addr_type hdr.ip6_src
    if addrtype = IPV6_ADDR_ANY ∨
        addrtype &&& (IPV6_ADDR_MULTICAST ||| IPV6_ADDR_LOOPBACK) ≠ 0 then
      errorDrop w
    else if addrtype &&& IPV6_ADDR_LINKLOCAL ≠ 0 then errorDrop w
    else
      let mtu0 := ip6_mtu_forward rt
      let mtu := if mtu0 < IPV6_MIN_MTU then IPV6_MIN_MTU else mtu0
      if m.pkt_len > mtu then
        -- mbuf->port = rt->rt6_dev->id; (icmpv6 packet-too-big is stubbed out)
        let w := w.upd (fun s => { s with intoobigerrors := s.intoobigerrors + 1,
                                          fragfails := s.fragfails + 1 })
        some (EDPVS_INVAL, w.emit (.pktFree m.userdata))
      else
        let m := { m with hdr := { hdr with ip6_hlim := hdr.ip6_hlim - 1 } }
        INET_HOOK env .forward m (ip6_forward_fin env cfg) w

/-- The extension-chain walking loop of ip6_local_in_fin: resubmit /
resubmit_final with the captured header view, the current next-header value,
the have-final flag, and whether this entry performs the l3_len advance
(resubmit) or skips it (resubmit_final).  Fuel bounds the goto loop; `none`
is fuel exhaustion, never a behaviour of the code. -/
def ip6_walk (env : Env) (hdr : Ip6Hdr) :
    Nat → Mbuf → Nat → Bool → Bool → World → Option (Int × World)
  | 0, _, _, _, _, _ => none
  | fuel + 1, m, nexthdr, have_final, doAdj, w =>
    let adjRes := if doAdj then rte_pktmbuf_adj m m.l3_len else some m
    match adjRes with
    | none =>
      -- goto discard
      let w := w.upd (fun s => { s with indiscards := s.indiscards + 1 })
      some (EDPVS_INVAL, w.emit (.pktFree m.userdata))
    | some m =>
      match env.prots nexthdr with
      | none =>
        -- no proto, kni may like it
        let w := w.upd (fun s => { s with inunknownprotos := s.inunknownprotos + 1 })
        some (EDPVS_KNICONTINUE, w.emit (.kniPass m.userdata))
      | some prot =>
        let is_final : Bool := prot.flags &&& INET6_PROTO_F_FINAL != 0
        if have_final && !is_final then
          -- final proto don't allow encap non-final: goto discard
          let w := w.upd (fun s => { s with indiscards := s.indiscards + 1 })
          some (EDPVS_INVAL, w.emit (.pktFree m.userdata))
        else if !have_final && is_final && ipv6_addr_is_multicast hdr.ip6_dst &&
            !env.inet_chk_mcast_addr (env.netif_port_get m.port) hdr.ip6_dst
              (some hdr.ip6_src) then
          -- first final proto, multicast membership failed: kni may like it
          some (EDPVS_KNICONTINUE, w.emit (.kniPass m.userdata))
        else
          let have_final' := have_final || is_final
          let w := w.emit (.handlerCall nexthdr)
          let (ret, m') := prot.handler m
          if ret > 0 then
            -- positive return is the next header value (stored into a u8)
            ip6_walk env hdr fuel m' (ret.toNat % 256) have_final' (!is_final) w
          else
            let w := w.upd (fun s => { s with indelivers := s.indelivers + 1 })
            some (ret, w)

/-- ip6_local_in_fin: release the route saved in userdata, re-publish the
slot as the header pointer, then run the extension-chain walk from the fixed
header's next-header value. -/
def ip6_local_in_fin (env : Env) (fuel : Nat) (m : Mbuf) (w : World) :
    Option (Int × World) :=
  let hdr := ip6_hdr m
  let w := if m.userdata ≠ .null then w.emit .routePut else w
  let m := { m with userdata := .hdrref }
  ip6_walk env hdr fuel m hdr.ip6_nxt false true w

/-- ip6_local_in: the local-in hook terminating in ip6_local_in_fin. -/
def ip6_local_in (env : Env) (fuel : Nat) (m : Mbuf) (w : World) : Option (Int × World) :=
  INET_HOOK env .localIn m (ip6_local_in_fin env fuel) w

/-- ip6_mc_local_in: multicast in-stats, membership gate; on failure release
the binding and pass to kni (the userdata slot is left as the source leaves
it). -/
def ip6_mc_local_in (env : Env) (fuel : Nat) (m : Mbuf) (w : World) : Option (Int × World) :=
  let iph := ip6_hdr m
  let w := w.upd (fun s => { s with inmcastpkts := s.inmcastpkts + 1,
                                    inmcastoctets := s.inmcastoctets + m.pkt_len })
  if env.inet_chk_mcast_addr (env.netif_port_get m.port) iph.ip6_dst none then
    ip6_local_in env fuel m w
  else
    let w := w.emit .routePut
    some (EDPVS_KNICONTINUE, w.emit (.kniPass m.userdata))

/-- ip6_route_input: input route lookup keyed by the flow built from the
ingress device, addresses and next header. -/
def ip6_route_input (env : Env) (m : Mbuf) : Option Route6 :=
  let hdr := ip6_hdr m
  env.route_input m
    { fl6_iif := env.netif_port_get m.port, fl6_daddr := hdr.ip6_dst,
      fl6_saddr := hdr.ip6_src, fl6_proto := hdr.ip6_nxt }

/-- ip6_rcv_fin: route lookup, attach the binding, dispatch by route flags
and destination class; unroutable or unforwardable frames go to kni with the
binding released and the slot cleared. -/
def ip6_rcv_fin (env : Env) (cfg : Config) (fuel : Nat) (m : Mbuf) (w : World) :
    Option (Int × World) :=
  let etype := m.packet_type
  let iph := ip6_hdr m
  let w := w.emit .routeLookupIn
  match ip6_route_input env m with
  | none =>
    let w := w.upd (fun s => { s with innoroutes := s.innoroutes + 1 })
    -- goto kni with rt = NULL: no release, slot untouched
    some (EDPVS_KNICONTINUE, w.emit (.kniPass m.userdata))
  | some rt =>
    let m := { m with userdata := .route rt }
    if rt.rt6_flags &&& RTF_LOCALIN ≠ 0 then
      ip6_local_in env fuel m w
    else if ipv6_addr_type iph.ip6_dst &&& IPV6_ADDR_MULTICAST ≠ 0 then
      ip6_mc_local_in env fuel m w
    else if rt.rt6_flags &&& RTF_FORWARD ≠ 0 then
      if etype ≠ .host then
        -- pass multi-/broad-cast to kni: release and clear
        let w := w.emit .routePut
        let m := { m with userdata := .null }
        some (EDPVS_KNICONTINUE, w.emit (.kniPass m.userdata))
      else
        ip6_forward env cfg m w
    else
      let w := w.upd (fun s => { s with innoroutes := s.innoroutes + 1 })
      let w := w.emit .routePut
      let m := { m with userdata := .null }
      some (EDPVS_KNICONTINUE, w.emit (.kniPass m.userdata))

/-- The tail of ip6_rcv after the declared-length check: reset the scratch
offset to the fixed-header size, clear the attached-route slot, run the
hop-by-hop option walk when the first next-header asks for it (its failure
is the err label: header-error count, free, drop), then the pre-routing hook
terminating in ip6_rcv_fin. -/
def ip6_rcv_dispatch (env : Env) (cfg : Config) (fuel : Nat) (m : Mbuf) (w : World) :
    Option (Int × World) :=
  let m := { m with l3_len := 40, userdata := .null }
  if (ip6_hdr m).ip6_nxt = NEXTHDR_HOP then
    let w := w.emit .hbhParse
    match env.ipv6_parse_hopopts m with
    | none =>
      some (EDPVS_DROP,
        ((w.upd (fun s => { s with inhdrerrors := s.inhdrerrors + 1 })).emit
          (.pktFree m.userdata)))
    | some l3 =>
      INET_HOOK env .preRouting { m with l3_len := l3 } (ip6_rcv_fin env cfg fuel) w
  else
    INET_HOOK env .preRouting m (ip6_rcv_fin env cfg fuel) w

/-- ip6_rcv: the receive validator — link-class and device gate, in-stats,
global disable gate, pull, version, loopback, scope and source policy, the
declared-length check with trim, then ip6_rcv_dispatch. -/
def ip6_rcv (env : Env) (cfg : Config) (fuel : Nat) (m : Mbuf)
    (dev : Option NetifPort) (w : World) : Option (Int × World) :=
  let etype := m.packet_type
  -- goto err: count inhdrerrors, then drop: free, EDPVS_DROP.
  let errDrop : World → Option (Int × World) := fun w =>
    some (EDPVS_DROP,
      ((w.upd (fun s => { s with inhdrerrors := s.inhdrerrors + 1 })).emit
        (.pktFree m.userdata)))
  if etype = .otherhost ∨ dev = none then
    some (EDPVS_DROP, w.emit (.pktFree m.userdata))
  else
    let w := w.upd (fun s => { s with inpkts := s.inpkts + 1,
                                      inoctets := s.inoctets + m.pkt_len })
    if cfg.disable then
      let w := w.upd (fun s => { s with indiscards := s.indiscards + 1 })
      some (EDPVS_DROP, w.emit (.pktFree m.userdata))
    else if ¬ mbuf_may_pull m 40 then errDrop w
    else
      let hdr := ip6_hdr m
      if (hdr.ip6_vfc &&& 0xf0) >>> 4 ≠ 6 then errDrop w
      else if ipv6_addr_loopback hdr.ip6_src ∨ ipv6_addr_loopback hdr.ip6_dst then
        errDrop w
      else if ipv6_addr_is_multicast hdr.ip6_dst ∧ IPV6_ADDR_MC_SCOPE hdr.ip6_dst = 1 then
        errDrop w
      else if ¬ ipv6_addr_is_multicast hdr.ip6_dst ∧
          (etype = .broadcast ∨ etype = .multicast) then
        errDrop w
      else if ipv6_addr_is_multicast hdr.ip6_dst ∧ IPV6_ADDR_MC_SCOPE hdr.ip6_dst = 0 then
        errDrop w
      else if ipv6_addr_is_multicast hdr.ip6_src then errDrop w
      else
        let plen := hdr.ip6_plen
        let tot_len := plen + 40
        if plen ≠ 0 ∨ hdr.ip6_nxt ≠ NEXTHDR_HOP then
          if tot_len > m.pkt_len then
            let w := w.upd (fun s => { s with intruncatedpkts := s.intruncatedpkts + 1 })
            some (EDPVS_DROP, w.emit (.pktFree m.userdata))
          else if m.pkt_len > tot_len then
            match rte_pktmbuf_trim m (m.pkt_len - tot_len) with
            | none => errDrop w
            | some m' => ip6_rcv_dispatch env cfg fuel m' w
          else ip6_rcv_dispatch env cfg fuel m w
        else ip6_rcv_dispatch env cfg fuel m w

/-- ipv6_xmit: argument gate, jumbo gate, output route lookup, attach the
binding, prepend and populate the fixed header, source selection, local-out. -/
def ipv6_xmit (env : Env) (cfg : Config) (mbufOpt : Option Mbuf)
    (fl6Opt : Option Flow6) (w : World) : Option (Int × World) :=
  match mbufOpt, fl6Opt with
  | none, _ => some (EDPVS_INVAL, w)
  | some m, none => some (EDPVS_INVAL, w.emit (.pktFree m.userdata))
  | some m, some fl6 =>
    if ipv6_addr_any fl6.fl6_daddr then
      some (EDPVS_INVAL, w.emit (.pktFree m.userdata))
    else if m.pkt_len > IPV6_MAXPLEN then
      -- TODO of the source: jumbo packets unsupported
      let w := w.upd (fun s => { s with outdiscards := s.outdiscards + 1 })
      some (EDPVS_NOROOM, w.emit (.pktFree m.userdata))
    else
      let w := w.emit .routeLookupOut
      match env.route_output m fl6 with
      | none =>
        let w := w.upd (fun s => { s with outnoroutes := s.outnoroutes + 1 })
        some (EDPVS_NOROUTE, w.emit (.pktFree m.userdata))
      | some rt =>
        let m := { m with userdata := .route rt }
        match rte_pktmbuf_prepend m 40 with
        | none =>
          let w := w.emit .routePut
          let w := w.emit (.pktFree m.userdata)
          let w := w.upd (fun s => { s with outdiscards := s.outdiscards + 1 })
          some (EDPVS_NOROOM, w)
        | some m =>
          let hdr0 : Ip6Hdr :=
            { ip6_vfc := 0x60,
              ip6_flow := (fl6.fl6_tos <<< 20) ||| (fl6.fl6_flow &&& 0xfffff),
              ip6_plen := m.pkt_len - 40,
              ip6_nxt := fl6.fl6_proto,
              ip6_hlim := if fl6.fl6_ttl ≠ 0 then fl6.fl6_ttl else INET_DEF_TTL,
              ip6_src := fl6.fl6_saddr,
              ip6_dst := fl6.fl6_daddr }
          let hdr :=
            if ipv6_addr_any hdr0.ip6_src ∧ hdr0.ip6_nxt ≠ IPPROTO_ICMPV6 then
              { hdr0 with
                ip6_src := env.inet_addr_select rt.rt6_dev fl6.fl6_daddr fl6.fl6_scope }
            else hdr0
          ip6_local_out env cfg { m with hdr := hdr } w

/-! ### Concrete fixtures for witnesses, counterexamples and bug evidence. -/

def dev0 : NetifPort := { id := 1, mtu := 1500 }

/-- A global unicast address (2001::1). -/
def addrUni1 : In6Addr := [0x20, 1, 0, 0, 0, 0, 0, 0, 0, 0, 0, 0, 0, 0, 0, 1]

/-- A global unicast address (2001::2). -/
def addrUni2 : In6Addr := [0x20, 1, 0, 0, 0, 0, 0, 0, 0, 0, 0, 0, 0, 0, 0, 2]

/-- A link-local-scope multicast address (ff02::5). -/
def addrMc2 : In6Addr := [0xff, 2, 0, 0, 0, 0, 0, 0, 0, 0, 0, 0, 0, 0, 0, 5]

/-- A well-formed unicast header: version 6, 60-byte payload, TCP, hlim 64. -/
def hdr0 : Ip6Hdr :=
  { ip6_vfc := 0x60, ip6_flow := 0, ip6_plen := 60, ip6_nxt := 6,
    ip6_hlim := 64, ip6_src := addrUni1, ip6_dst := addrUni2 }

/-- A host-classified 100-byte single-segment packet carrying hdr0. -/
def mbuf0 : Mbuf :=
  { pkt_len := 100, head_len := 100, tail_len := 100, headroom := 0,
    packet_type := .host, port := 1, l3_len := 40, userdata := .null, hdr := hdr0 }

/-- A forwardable route over dev0. -/
def rtFwd : Route6 :=
  { rt6_flags := RTF_FORWARD, rt6_mtu := 1500, rt6_dev := some dev0,
    rt6_gateway := in6addr_any }

/-- A route with no local-in/forward flag. -/
def rtPlain : Route6 :=
  { rt6_flags := 0, rt6_mtu := 1500, rt6_dev := some dev0,
    rt6_gateway := in6addr_any }

/-- Baseline environment: hooks accept, no routes, membership check fails,
no registered protocols. -/
def env0 : Env :=
  { hooks := fun _ m => .accept m,
    netif_port_get := fun _ => some dev0,
    route_input := fun _ _ => none,
    route_output := fun _ _ => none,
    inet_chk_mcast_addr := fun _ _ _ => false,
    neigh_output := fun _ _ _ => EDPVS_OK,
    ipv6_parse_hopopts := fun m => some m.l3_len,
    prots := fun _ => none,
    inet_addr_select := fun _ d _ => d }

/-- Environment whose input route lookup yields the forwardable route. -/
def envFwd : Env := { env0 with route_input := fun _ _ => some rtFwd }

/-- Environment whose input route lookup yields the plain route. -/
def envMc : Env := { env0 with route_input := fun _ _ => some rtPlain }

def cfgOn : Config := { forwarding := true, disable := false }
def cfgOff : Config := { forwarding := false, disable := false }
def cfgDis : Config := { forwarding := false, disable := true }

def w0 : World := { stats := {}, trace := [] }

/-- A final-protocol descriptor whose handler breaks the contract by
returning a negative value. -/
def protNegFinal : Inet6Protocol :=
  { handler := fun m => (-7, m), flags := INET6_PROTO_F_FINAL }

/-- Environment registering the contract-breaking final protocol at
next-header 6. -/
def envNeg : Env :=
  { env0 with prots := fun n => if n = 6 then some protNegFinal else none }

/-- A non-final (extension) descriptor. -/
def protNonFinal : Inet6Protocol := { handler := fun m => (0, m), flags := 0 }

/-- Environment registering the non-final descriptor at next-header 43. -/
def envNF : Env :=
  { env0 with prots := fun n => if n = 43 then some protNonFinal else none }

/-- An oversized forwardable packet (2000 bytes) with the binding attached. -/
def mTooBig : Mbuf :=
  { mbuf0 with pkt_len := 2000, head_len := 2000, tail_len := 2000,
               userdata := .route rtFwd }

/-- A buffer three bytes longer than its declared total length. -/
def mTrim : Mbuf := { mbuf0 with pkt_len := 103, head_len := 103, tail_len := 103 }

/-- A version-5 buffer whose declared total length exceeds the buffer. -/
def mBadVerTrunc : Mbuf :=
  { mbuf0 with hdr := { hdr0 with ip6_vfc := 0x50, ip6_plen := 200 } }

/-! ## Claim theorems -/

/-- C1: evidence of the code bug.  A unicast packet routed with a FORWARD
route and an attached binding that hits an ip6_forward drop branch (here:
global forwarding disabled) is freed while the binding is still attached,
and no release (routePut) ever appears in the trace: the route reference
acquired by the routing step leaks, contradicting the release-exactly-once
invariant the claim states. -/
theorem c1_forward_drop_leaks_binding :
    ip6_rcv_fin envFwd cfgOff 1 mbuf0 w0 =
        some (EDPVS_INVAL,
          ⟨{ inaddrerrors := 1 },
           [Event.routeLookupIn, Event.pktFree (.route rtFwd)]⟩) ∧
      Event.routePut ∉ [Event.routeLookupIn, Event.pktFree (Userdata.route rtFwd)] :=
  ⟨rfl, by decide⟩

/-- C8: evidence of the code bug.  A multicast packet whose membership check
fails is handed to the external non-owning consumer (kniPass) while the
attached-object slot still holds the — already released — Route Binding:
ip6_mc_local_in calls route6_put but never clears mbuf->userdata, unlike the
kni path of ip6_rcv_fin.  The claim states the slot is cleared on exactly
this hand-off path. -/
theorem c8_mc_handoff_keeps_stale_binding :
    ip6_rcv_fin envMc cfgOn 1 { mbuf0 with hdr := { hdr0 with ip6_dst := addrMc2 } } w0 =
        some (EDPVS_KNICONTINUE,
          ⟨{ inmcastpkts := 1, inmcastoctets := 100 },
           [Event.routeLookupIn, Event.routePut, Event.kniPass (.route rtPlain)]⟩) ∧
      Userdata.route rtPlain ≠ Userdata.null :=
  ⟨rfl, by decide⟩

/-- C3 (amended): for a received buffer that passes the receive validator's
preceding checks (link-class and device, stack enabled, at least
header-sized, version 6, loopback, multicast-scope, broadcast-encapsulation
and multicast-source checks): if the declared payload is non-zero or the
first next-header is not hop-by-hop, then a declared total length above the
buffer length is a truncated drop; a buffer longer than declared (any K ≥ 0
excess bytes) is trimmed to exactly 40 + payload bytes before the dispatch
stage that runs the pre-routing hook, and a trim failure is a header-error
drop; a zero payload with hop-by-hop first header bypasses the length check
and is dispatched with the buffer untouched. -/
theorem c3_rcv_length_check (env : Env) (cfg : Config) (fuel : Nat) (m : Mbuf)
    (d : NetifPort) (w : World)
    (ht : m.packet_type ≠ .otherhost) (hdis : cfg.disable = false)
    (hpull : 40 ≤ m.pkt_len)
    (hver : (m.hdr.ip6_vfc &&& 0xf0) >>> 4 = 6)
    (hls : ipv6_addr_loopback m.hdr.ip6_src = false)
    (hld : ipv6_addr_loopback m.hdr.ip6_dst = false)
    (hsc1 : ¬(ipv6_addr_is_multicast m.hdr.ip6_dst ∧ IPV6_ADDR_MC_SCOPE m.hdr.ip6_dst = 1))
    (hbc : ¬(¬ ipv6_addr_is_multicast m.hdr.ip6_dst ∧
        (m.packet_type = .broadcast ∨ m.packet_type = .multicast)))
    (hsc0 : ¬(ipv6_addr_is_multicast m.hdr.ip6_dst ∧ IPV6_ADDR_MC_SCOPE m.hdr.ip6_dst = 0))
    (hms : ipv6_addr_is_multicast m.hdr.ip6_src = false) :
    ((m.hdr.ip6_plen ≠ 0 ∨ m.hdr.ip6_nxt ≠ NEXTHDR_HOP) →
      m.hdr.ip6_plen + 40 > m.pkt_len →
      ip6_rcv env cfg fuel m (some d) w =
        some (EDPVS_DROP,
          ⟨{ w.stats with inpkts := w.stats.inpkts + 1,
                          inoctets := w.stats.inoctets + m.pkt_len,
                          intruncatedpkts := w.stats.intruncatedpkts + 1 },
           w.trace ++ [Event.pktFree m.userdata]⟩)) ∧
    ((m.hdr.ip6_plen ≠ 0 ∨ m.hdr.ip6_nxt ≠ NEXTHDR_HOP) →
      m.hdr.ip6_plen + 40 ≤ m.pkt_len →
      m.pkt_len - (m.hdr.ip6_plen + 40) ≤ m.tail_len →
      ip6_rcv env cfg fuel m (some d) w =
        ip6_rcv_dispatch env cfg fuel
          { m with pkt_len := m.hdr.ip6_plen + 40,
                   tail_len := m.tail_len - (m.pkt_len - (m.hdr.ip6_plen + 40)) }
          ⟨{ w.stats with inpkts := w.stats.inpkts + 1,
                          inoctets := w.stats.inoctets + m.pkt_len }, w.trace⟩) ∧
    ((m.hdr.ip6_plen ≠ 0 ∨ m.hdr.ip6_nxt ≠ NEXTHDR_HOP) →
      m.hdr.ip6_plen + 40 ≤ m.pkt_len →
      m.tail_len < m.pkt_len - (m.hdr.ip6_plen + 40) →
      ip6_rcv env cfg fuel m (some d) w =
        some (EDPVS_DROP,
          ⟨{ w.stats with inpkts := w.stats.inpkts + 1,
                          inoctets := w.stats.inoctets + m.pkt_len,
                          inhdrerrors := w.stats.inhdrerrors + 1 },
           w.trace ++ [Event.pktFree m.userdata]⟩)) ∧
    (m.hdr.ip6_plen = 0 ∧ m.hdr.ip6_nxt = NEXTHDR_HOP →
      ip6_rcv env cfg fuel m (some d) w =
        ip6_rcv_dispatch env cfg fuel m
          ⟨{ w.stats with inpkts := w.stats.inpkts + 1,
                          inoctets := w.stats.inoctets + m.pkt_len }, w.trace⟩) := by
  have hbc2 : ipv6_addr_is_multicast m.hdr.ip6_dst = false →
      ¬(m.packet_type = EthPktType.broadcast ∨ m.packet_type = EthPktType.multicast) :=
    fun hf h => hbc ⟨by simp [hf], h⟩
  have hsc1x : ipv6_addr_is_multicast m.hdr.ip6_dst = true →
      IPV6_ADDR_MC_SCOPE m.hdr.ip6_dst ≠ 1 := fun htt h => hsc1 ⟨htt, h⟩
  have hsc0x : ipv6_addr_is_multicast m.hdr.ip6_dst = true →
      IPV6_ADDR_MC_SCOPE m.hdr.ip6_dst ≠ 0 := fun htt h => hsc0 ⟨htt, h⟩
  refine ⟨?_, ?_, ?_, ?_⟩
  · intro hg htr
    cases hmcd : ipv6_addr_is_multicast m.hdr.ip6_dst with
    | false =>
      simp [ip6_rcv, ip6_hdr, mbuf_may_pull, ht, hdis, hpull, hver, hls, hld,
            hmcd, hbc2 hmcd, hms, hg, htr, World.upd, World.emit]
    | true =>
      simp [ip6_rcv, ip6_hdr, mbuf_may_pull, ht, hdis, hpull, hver, hls, hld,
            hmcd, hsc1x hmcd, hsc0x hmcd, hms, hg, htr, World.upd, World.emit]
  · intro hg hfit htl
    by_cases hgt : m.pkt_len > m.hdr.ip6_plen + 40
    · have e : m.pkt_len - (m.pkt_len - (m.hdr.ip6_plen + 40)) = m.hdr.ip6_plen + 40 :=
        Nat.sub_sub_self hfit
      cases hmcd : ipv6_addr_is_multicast m.hdr.ip6_dst with
      | false =>
        simp [ip6_rcv, ip6_hdr, mbuf_may_pull, rte_pktmbuf_trim, ht, hdis, hpull,
              hver, hls, hld, hmcd, hbc2 hmcd, hms, hg, hgt, htl, e,
              not_lt.mpr hfit, World.upd, World.emit]
      | true =>
        simp [ip6_rcv, ip6_hdr, mbuf_may_pull, rte_pktmbuf_trim, ht, hdis, hpull,
              hver, hls, hld, hmcd, hsc1x hmcd, hsc0x hmcd, hms, hg, hgt, htl, e,
              not_lt.mpr hfit, World.upd, World.emit]
    · have he : m.pkt_len = m.hdr.ip6_plen + 40 := le_antisymm (not_lt.mp hgt) hfit
      have h0 : m.pkt_len - (m.hdr.ip6_plen + 40) = 0 := by omega
      rw [h0, Nat.sub_zero, ← he]
      cases hmcd : ipv6_addr_is_multicast m.hdr.ip6_dst with
      | false =>
        simp [ip6_rcv, ip6_hdr, mbuf_may_pull, ht, hdis, hpull, hver, hls, hld,
              hmcd, hbc2 hmcd, hms, hg, hgt, not_lt.mpr hfit, World.upd, World.emit]
      | true =>
        simp [ip6_rcv, ip6_hdr, mbuf_may_pull, ht, hdis, hpull, hver, hls, hld,
              hmcd, hsc1x hmcd, hsc0x hmcd, hms, hg, hgt, not_lt.mpr hfit,
              World.upd, World.emit]
  · intro hg hfit htl
    have hgt : m.pkt_len > m.hdr.ip6_plen + 40 := by omega
    cases hmcd : ipv6_addr_is_multicast m.hdr.ip6_dst with
    | false =>
      simp [ip6_rcv, ip6_hdr, mbuf_may_pull, rte_pktmbuf_trim, ht, hdis, hpull,
            hver, hls, hld, hmcd, hbc2 hmcd, hms, hg, hgt, not_lt.mpr hfit,
            not_le.mpr htl, World.upd, World.emit]
    | true =>
      simp [ip6_rcv, ip6_hdr, mbuf_may_pull, rte_pktmbuf_trim, ht, hdis, hpull,
            hver, hls, hld, hmcd, hsc1x hmcd, hsc0x hmcd, hms, hg, hgt,
            not_lt.mpr hfit, not_le.mpr htl, World.upd, World.emit]
  · intro hz
    cases hmcd : ipv6_addr_is_multicast m.hdr.ip6_dst with
    | false =>
      simp [ip6_rcv, ip6_hdr, mbuf_may_pull, ht, hdis, hpull, hver, hls, hld,
            hmcd, hbc2 hmcd, hms, hz.1, hz.2, World.upd, World.emit]
    | true =>
      simp [ip6_rcv, ip6_hdr, mbuf_may_pull, ht, hdis, hpull, hver, hls, hld,
            hmcd, hsc1x hmcd, hsc0x hmcd, hms, hz.1, hz.2, World.upd, World.emit]

/-- C3 witness: the amended theorem applied to a buffer with three trailing
garbage bytes — it is trimmed to exactly 100 = 40 + 60 bytes and dispatched. -/
theorem c3_rcv_length_check_witness :
    ip6_rcv env0 cfgOn 1 mTrim (some dev0) w0 =
      ip6_rcv_dispatch env0 cfgOn 1 { mTrim with pkt_len := 100, tail_len := 100 }
        ⟨{ inpkts := 1, inoctets := 103 }, []⟩ :=
  (c3_rcv_length_check env0 cfgOn 1 mTrim dev0 w0 (by decide) rfl (by decide)
      (by decide) (by decide) (by decide) (by decide) (by decide) (by decide)
      (by decide)).2.1 (by decide) (by decide) (by decide)

/-- C3 counterexample: a received buffer satisfying the claim's guard
(non-zero declared payload) whose declared total length exceeds the buffer
length but whose version field is 5 is dropped as a header error, not as
truncated — the truncated counter stays zero, contrary to the claim's
universal statement over every received buffer. -/
theorem c3_bad_version_not_truncated :
    ip6_rcv env0 cfgOn 1 mBadVerTrunc (some dev0) w0 =
        some (EDPVS_DROP,
          ⟨{ inpkts := 1, inoctets := 100, inhdrerrors := 1 }, [Event.pktFree .null]⟩) ∧
      ({ inpkts := 1, inoctets := 100, inhdrerrors := 1 } : InetStats).intruncatedpkts = 0 :=
  ⟨rfl, rfl⟩

/-- C4: a packet that passes the forwarding engine's administrative,
link-class, multicast, hop-limit and source-address checks is judged against
the effective path MTU — ip6_mtu_forward (route MTU if set, else device MTU
if set, else the floor) clamped up to IPV6_MIN_MTU — and is either dropped
with too-big plus fragmentation-failure accounting when longer, or has its
hop limit decremented by exactly one and enters the forward hook stage,
whose terminal handler increments the forwarded-datagram counters and
invokes the output engine. -/
theorem c4_forward_mtu_decrement (env : Env) (cfg : Config) (m : Mbuf) (w : World)
    (hf : cfg.forwarding = true) (hh : m.packet_type = .host)
    (hmc : ipv6_addr_is_multicast m.hdr.ip6_dst = false)
    (hl : 1 < m.hdr.ip6_hlim)
    (hs1 : ipv6_addr_type m.hdr.ip6_src ≠ IPV6_ADDR_ANY)
    (hs2 : ipv6_addr_type m.hdr.ip6_src &&& (IPV6_ADDR_MULTICAST ||| IPV6_ADDR_LOOPBACK) = 0)
    (hs3 : ipv6_addr_type m.hdr.ip6_src &&& IPV6_ADDR_LINKLOCAL = 0) :
    (ip6_forward env cfg m w =
      if m.pkt_len >
          (if ip6_mtu_forward m.userdata.getRoute < IPV6_MIN_MTU then IPV6_MIN_MTU
           else ip6_mtu_forward m.userdata.getRoute) then
        some (EDPVS_INVAL,
          ⟨{ w.stats with intoobigerrors := w.stats.intoobigerrors + 1,
                          fragfails := w.stats.fragfails + 1 },
           w.trace ++ [Event.pktFree m.userdata]⟩)
      else
        INET_HOOK env .forward
          { m with hdr := { m.hdr with ip6_hlim := m.hdr.ip6_hlim - 1 } }
          (ip6_forward_fin env cfg) w) ∧
    (∀ m2 w2, ip6_forward_fin env cfg m2 w2 =
        ip6_output env cfg m2
          (w2.upd (fun s => { s with outforwdatagrams := s.outforwdatagrams + 1,
                                     outoctets := s.outoctets + m2.pkt_len }))) := by
  refine ⟨?_, fun m2 w2 => rfl⟩
  simp [ip6_forward, ip6_hdr, hf, hh, hmc, hs1, hs2, hs3, not_le.mpr hl,
        World.upd, World.emit]

/-- C4 witness: the theorem applied to a 2000-byte packet against a 1500
MTU route, landing in the too-big branch. -/
theorem c4_forward_mtu_decrement_witness :
    ip6_forward envFwd cfgOn mTooBig w0 =
      some (EDPVS_INVAL,
        ⟨{ intoobigerrors := 1, fragfails := 1 }, [Event.pktFree (.route rtFwd)]⟩) := by
  have h := (c4_forward_mtu_decrement envFwd cfgOn mTooBig w0 rfl rfl (by decide)
    (by decide) (by decide) (by decide) (by decide)).1
  rw [h]
  rfl

/-- C5 (amended): a packet reaching the forwarding engine with forwarding
enabled, host link-class, unicast destination and hop limit 1 or 0 is freed
with EDPVS_INVAL; the header-error counter is incremented and nothing else
changes — in particular no second (hop-exceeded) counter exists or is
incremented, and no hook/neighbour event delivers the packet to the output
engine. -/
theorem c5_forward_hoplimit_drop (env : Env) (cfg : Config) (m : Mbuf) (w : World)
    (hf : cfg.forwarding = true) (hh : m.packet_type = .host)
    (hmc : ipv6_addr_is_multicast m.hdr.ip6_dst = false)
    (hl : m.hdr.ip6_hlim ≤ 1) :
    ip6_forward env cfg m w =
      some (EDPVS_INVAL,
        ⟨{ w.stats with inhdrerrors := w.stats.inhdrerrors + 1 },
         w.trace ++ [Event.pktFree m.userdata]⟩) := by
  simp [ip6_forward, ip6_hdr, hf, hh, hmc, hl, World.upd, World.emit]

/-- C5 witness: the amended theorem applied at hop limit 0. -/
theorem c5_forward_hoplimit_drop_witness :
    ip6_forward env0 cfgOn
        { mbuf0 with hdr := { hdr0 with ip6_hlim := 0 }, userdata := .route rtFwd } w0 =
      some (EDPVS_INVAL, ⟨{ inhdrerrors := 1 }, [Event.pktFree (.route rtFwd)]⟩) :=
  c5_forward_hoplimit_drop env0 cfgOn
    { mbuf0 with hdr := { hdr0 with ip6_hlim := 0 }, userdata := .route rtFwd } w0
    rfl rfl (by decide) (by decide)

/-- C5 counterexample: at hop limit 1 the complete post-state differs from
the pre-state in the header-error counter alone — the claimed second
"hop-exceeded" counter increment does not happen (no such counter is touched
by the source on this path). -/
theorem c5_hoplimit_only_one_counter :
    ip6_forward env0 cfgOn
        { mbuf0 with hdr := { hdr0 with ip6_hlim := 1 }, userdata := .route rtFwd } w0 =
      some (EDPVS_INVAL, ⟨{ inhdrerrors := 1 }, [Event.pktFree (.route rtFwd)]⟩) :=
  rfl

/-- C7 (amended): any received buffer that is not other-host classified,
with a present device and the stack enabled, whose version field is not 6
(including buffers too short to carry a full header) is freed with a drop
status, the header-error counter is incremented, and no hook, handler or
hand-off event occurs. -/
theorem c7_rcv_bad_version (env : Env) (cfg : Config) (fuel : Nat) (m : Mbuf)
    (d : NetifPort) (w : World)
    (ht : m.packet_type ≠ .otherhost) (hdis : cfg.disable = false)
    (hv : (m.hdr.ip6_vfc &&& 0xf0) >>> 4 ≠ 6) :
    ip6_rcv env cfg fuel m (some d) w =
      some (EDPVS_DROP,
        ⟨{ w.stats with inpkts := w.stats.inpkts + 1,
                        inoctets := w.stats.inoctets + m.pkt_len,
                        inhdrerrors := w.stats.inhdrerrors + 1 },
         w.trace ++ [Event.pktFree m.userdata]⟩) := by
  by_cases hp : mbuf_may_pull m 40 <;>
    simp [ip6_rcv, ip6_hdr, ht, hdis, hv, hp, World.upd, World.emit]

/-- C7 witness: the amended theorem applied to a version-5 host frame. -/
theorem c7_rcv_bad_version_witness :
    ip6_rcv env0 cfgOn 1 { mbuf0 with hdr := { hdr0 with ip6_vfc := 0x50 } }
        (some dev0) w0 =
      some (EDPVS_DROP,
        ⟨{ inpkts := 1, inoctets := 100, inhdrerrors := 1 },
         [Event.pktFree .null]⟩) :=
  c7_rcv_bad_version env0 cfgOn 1 { mbuf0 with hdr := { hdr0 with ip6_vfc := 0x50 } }
    dev0 w0 (by decide) rfl (by decide)

/-- C7 counterexample: a received buffer with version 5 but other-host
link-layer classification is dropped with the statistics untouched — the
header-error counter is not incremented, contrary to the claim's universal
statement over every received buffer. -/
theorem c7_otherhost_no_hdrerror :
    ip6_rcv env0 cfgOn 1
        { mbuf0 with packet_type := .otherhost, hdr := { hdr0 with ip6_vfc := 0x50 } }
        (some dev0) w0 =
        some (EDPVS_DROP, ⟨{}, [Event.pktFree .null]⟩) ∧
      ({} : InetStats).inhdrerrors = 0 :=
  ⟨rfl, rfl⟩

/-- C9 (amended): a transmit call with a packet and a flow whose destination
is not the unspecified address, whose length exceeds the maximum permitted
payload, returns the too-large failure (EDPVS_NOROOM), counts an out-discard
and frees the packet; the trace shows no route lookup happened and the
attached-object slot was never assigned a binding. -/
theorem c9_xmit_toobig (env : Env) (cfg : Config) (m : Mbuf) (fl6 : Flow6) (w : World)
    (hbig : m.pkt_len > IPV6_MAXPLEN) (hdst : ipv6_addr_any fl6.fl6_daddr = false) :
    ipv6_xmit env cfg (some m) (some fl6) w =
      some (EDPVS_NOROOM,
        ⟨{ w.stats with outdiscards := w.stats.outdiscards + 1 },
         w.trace ++ [Event.pktFree m.userdata]⟩) := by
  simp [ipv6_xmit, hdst, hbig, World.upd, World.emit]

/-- C9 witness: the amended theorem applied to a 70000-byte packet with a
unicast destination. -/
theorem c9_xmit_toobig_witness :
    ipv6_xmit env0 cfgOn (some { mbuf0 with pkt_len := 70000 })
        (some { fl6_daddr := addrUni2 }) w0 =
      some (EDPVS_NOROOM, ⟨{ outdiscards := 1 }, [Event.pktFree .null]⟩) :=
  c9_xmit_toobig env0 cfgOn { mbuf0 with pkt_len := 70000 }
    { fl6_daddr := addrUni2 } w0 (by decide) (by decide)

/-- C9 counterexample: an oversized transmit whose flow destination is the
unspecified address takes the argument-validity rejection first, returning
the generic invalid failure rather than the too-large failure and counting
no out-discard — the claim's universal statement over every oversized call
fails. -/
theorem c9_unspecified_dst_not_toobig :
    ipv6_xmit env0 cfgOn (some { mbuf0 with pkt_len := 70000 }) (some {}) w0 =
        some (EDPVS_INVAL, ⟨{}, [Event.pktFree .null]⟩) ∧
      EDPVS_INVAL ≠ EDPVS_NOROOM :=
  ⟨rfl, by decide⟩

/-- C10 (amended): with the stack-disable flag set, a received packet that
is not other-host classified and whose origin device is present is counted
(in-pkts/octets and in-discards) and freed with a drop status before any
header validation and before any hook, hop-by-hop or handler event. -/
theorem c10_rcv_disabled (env : Env) (cfg : Config) (fuel : Nat) (m : Mbuf)
    (d : NetifPort) (w : World)
    (hdis : cfg.disable = true) (ht : m.packet_type ≠ .otherhost) :
    ip6_rcv env cfg fuel m (some d) w =
      some (EDPVS_DROP,
        ⟨{ w.stats with inpkts := w.stats.inpkts + 1,
                        inoctets := w.stats.inoctets + m.pkt_len,
                        indiscards := w.stats.indiscards + 1 },
         w.trace ++ [Event.pktFree m.userdata]⟩) := by
  simp [ip6_rcv, hdis, ht, World.upd, World.emit]

/-- C10 witness: the amended theorem applied to a host frame. -/
theorem c10_rcv_disabled_witness :
    ip6_rcv env0 cfgDis 1 mbuf0 (some dev0) w0 =
      some (EDPVS_DROP,
        ⟨{ inpkts := 1, inoctets := 100, indiscards := 1 }, [Event.pktFree .null]⟩) :=
  c10_rcv_disabled env0 cfgDis 1 mbuf0 dev0 w0 rfl (by decide)

/-- C2 (amended): whenever the extension-chain walker invokes a handler that
returns a non-positive value, it increments the successful-delivery counter
and returns the handler's value verbatim as its own result — a negative
return is therefore propagated as a value and counted as a delivery, not
remapped to the generic invalid-input failure. -/
theorem c2_walk_nonpositive_return (env : Env) (hdr : Ip6Hdr) (fuel : Nat) (m : Mbuf)
    (nexthdr : Nat) (have_final : Bool) (w : World) (prot : Inet6Protocol)
    (ret : Int) (m' : Mbuf)
    (hp : env.prots nexthdr = some prot)
    (h1 : (have_final && !(prot.flags &&& INET6_PROTO_F_FINAL != 0)) = false)
    (h2 : (!have_final && (prot.flags &&& INET6_PROTO_F_FINAL != 0) &&
            ipv6_addr_is_multicast hdr.ip6_dst &&
            !env.inet_chk_mcast_addr (env.netif_port_get m.port) hdr.ip6_dst
              (some hdr.ip6_src)) = false)
    (hh : prot.handler m = (ret, m'))
    (hneg : ret ≤ 0) :
    ip6_walk env hdr (fuel + 1) m nexthdr have_final false w =
      some (ret,
        ⟨{ w.stats with indelivers := w.stats.indelivers + 1 },
         w.trace ++ [Event.handlerCall nexthdr]⟩) := by
  simp [ip6_walk, hp, hh, h1, h2, not_lt.mpr hneg, World.upd, World.emit]

/-- C2 witness: the amended theorem applied to the contract-breaking final
handler at next-header 6 after a final protocol has been seen. -/
theorem c2_walk_nonpositive_return_witness :
    ip6_walk envNeg hdr0 1 mbuf0 6 true false w0 =
      some (-7, ⟨{ indelivers := 1 }, [Event.handlerCall 6]⟩) :=
  c2_walk_nonpositive_return envNeg hdr0 0 mbuf0 6 true w0 protNegFinal (-7) mbuf0
    rfl (by decide) (by decide) rfl (by decide)

/-- C2 counterexample: in a full local-in run whose first handler returns
-7, the walker's own result is -7 — the handler's negative value, not the
generic invalid-input failure — and the successful-delivery counter is
incremented, both contradicting the claim. -/
theorem c2_negative_propagated_and_counted :
    ip6_local_in_fin envNeg 2 { mbuf0 with userdata := .route rtPlain } w0 =
        some (-7, ⟨{ indelivers := 1 }, [Event.routePut, Event.handlerCall 6]⟩) ∧
      (-7 : Int) ≠ EDPVS_INVAL :=
  ⟨rfl, by decide⟩

/-- C6: in any walker state in which a final protocol has already been seen,
meeting a registered descriptor that is not itself final discards the packet
— EDPVS_INVAL, in-discards incremented, packet freed — and the trace gains
no handler invocation for that descriptor (this also covers the
advance-failure branch that precedes the lookup). -/
theorem c6_walk_nonfinal_after_final (env : Env) (hdr : Ip6Hdr) (fuel : Nat)
    (m : Mbuf) (nexthdr : Nat) (doAdj : Bool) (w : World) (prot : Inet6Protocol)
    (hp : env.prots nexthdr = some prot)
    (hfin : prot.flags &&& INET6_PROTO_F_FINAL = 0) :
    ip6_walk env hdr (fuel + 1) m nexthdr true doAdj w =
      some (EDPVS_INVAL,
        ⟨{ w.stats with indiscards := w.stats.indiscards + 1 },
         w.trace ++ [Event.pktFree m.userdata]⟩) := by
  cases doAdj with
  | false => simp [ip6_walk, hp, hfin, World.upd, World.emit]
  | true =>
    by_cases hadj : m.l3_len ≤ m.head_len <;>
      simp [ip6_walk, rte_pktmbuf_adj, hadj, hp, hfin, World.upd, World.emit]

/-- C6 witness: the theorem applied to the non-final descriptor at
next-header 43 in a final-seen state. -/
theorem c6_walk_nonfinal_after_final_witness :
    ip6_walk envNF hdr0 1 mbuf0 43 true false w0 =
      some (EDPVS_INVAL, ⟨{ indiscards := 1 }, [Event.pktFree .null]⟩) :=
  c6_walk_nonfinal_after_final envNF hdr0 0 mbuf0 43 false w0 protNonFinal rfl rfl

/-- C10 counterexample: a received packet that is not other-host classified
but arrives with an absent origin device is freed with a drop status without
the in-discard counter increment the claim asserts. -/
theorem c10_no_device_no_indiscard :
    ip6_rcv env0 cfgDis 1 mbuf0 none w0 =
        some (EDPVS_DROP, ⟨{}, [Event.pktFree .null]⟩) ∧
      ({} : InetStats).indiscards = 0 :=
  ⟨rfl, rfl⟩

end DPVS
